import Mathlib

/-!
Shallow embedding of the CYW43 driver runner (`src/runner.rs`) and proofs
about it.  Machine integers are modelled as `Nat` with explicit `% 2^w`
where the Rust code wraps; byte packets are `List Nat`.  Fallible paths
(Rust `panic!` / out-of-bounds slicing) are modelled by an explicit
outcome constructor.
-/

namespace Cyw43

/-- SDPCM channel constant `CHANNEL_TYPE_CONTROL` (spec section 3: CONTROL = 0). -/
def CHANNEL_TYPE_CONTROL : Nat := 0

/-- SDPCM channel constant `CHANNEL_TYPE_EVENT` (spec section 3: EVENT = 1). -/
def CHANNEL_TYPE_EVENT : Nat := 1

/-- SDPCM channel constant `CHANNEL_TYPE_DATA` (spec section 3: DATA = 2). -/
def CHANNEL_TYPE_DATA : Nat := 2

/-- The SDPCM bus-framing header, 12 bytes little-endian
(`struct SdpcmHeader` used throughout `runner.rs`; field list from spec
section 3).  All fields are machine integers held as `Nat`. -/
structure SdpcmHeader where
  len : Nat
  len_inv : Nat
  sequence : Nat
  channel_and_flags : Nat
  next_length : Nat
  header_length : Nat
  wireless_flow_control : Nat
  bus_data_credit : Nat
  reserved0 : Nat
  reserved1 : Nat
deriving DecidableEq

/-- Byte size of `SdpcmHeader` (`SdpcmHeader::SIZE`). -/
def SdpcmHeader.SIZE : Nat := 12

/-- The CDC control header, 16 bytes little-endian
(`struct CdcHeader`; field list from spec section 3). -/
structure CdcHeader where
  cmd : Nat
  len : Nat
  flags : Nat
  id : Nat
  status : Nat
deriving DecidableEq

/-- Byte size of `CdcHeader` (`CdcHeader::SIZE`). -/
def CdcHeader.SIZE : Nat := 16

/-- Byte size of `BcdHeader` (`BcdHeader::SIZE`, 4 bytes: flags, priority,
flags2, data_offset; spec section 3). -/
def BcdHeader.SIZE : Nat := 4

/-- The mutable state of `Runner` that the claims are about
(`ioctl_id: u16`, `sdpcm_seq: u8`, `sdpcm_seq_max: u8`). -/
structure RunnerState where
  ioctl_id : Nat
  sdpcm_seq : Nat
  sdpcm_seq_max : Nat
deriving DecidableEq

/-- Initial runner state built by `Runner::new`:
`ioctl_id = 0`, `sdpcm_seq = 0`, `sdpcm_seq_max = 1`. -/
def RunnerState.new : RunnerState :=
  { ioctl_id := 0, sdpcm_seq := 0, sdpcm_seq_max := 1 }

/-- `Runner::update_credit`: on a header whose low channel nibble is < 3,
set `sdpcm_seq_max` from `bus_data_credit`, clamping to `sdpcm_seq + 2`
when the wrapping u8 difference `bus_data_credit - sdpcm_seq` exceeds
`0x40`.  `x.wrapping_sub y` on `u8` is `(x + 256 - y) % 256` for in-range
values; the `+ 2` wraps mod 256. -/
def update_credit (st : RunnerState) (h : SdpcmHeader) : RunnerState :=
  if h.channel_and_flags % 16 < 3 then
    { st with sdpcm_seq_max :=
        if (h.bus_data_credit + 256 - st.sdpcm_seq) % 256 > 0x40 then
          (st.sdpcm_seq + 2) % 256
        else
          h.bus_data_credit }
  else
    st

/-- `Runner::has_credit`:
`sdpcm_seq != sdpcm_seq_max && sdpcm_seq_max.wrapping_sub(sdpcm_seq) & 0x80 == 0`. -/
def has_credit (st : RunnerState) : Bool :=
  st.sdpcm_seq != st.sdpcm_seq_max &&
    ((st.sdpcm_seq_max + 256 - st.sdpcm_seq) % 256) &&& 0x80 == 0

/-- Read the byte at index `i` of a packet (0 when out of range; every use
is guarded by the length checks the source performs). -/
def get8 (l : List Nat) (i : Nat) : Nat := l.getD i 0

/-- Little-endian 16-bit read at offset `i`. -/
def le16 (l : List Nat) (i : Nat) : Nat := get8 l i + 256 * get8 l (i + 1)

/-- Little-endian 32-bit read at offset `i`. -/
def le32 (l : List Nat) (i : Nat) : Nat :=
  get8 l i + 256 * get8 l (i + 1) + 65536 * get8 l (i + 2) + 16777216 * get8 l (i + 3)

/-- Big-endian 16-bit read at offset `i` (event message fields arrive in
network byte order and are byteswapped on receive, spec section 3). -/
def be16 (l : List Nat) (i : Nat) : Nat := 256 * get8 l i + get8 l (i + 1)

/-- Big-endian 32-bit read at offset `i`. -/
def be32 (l : List Nat) (i : Nat) : Nat :=
  16777216 * get8 l i + 65536 * get8 l (i + 1) + 256 * get8 l (i + 2) + get8 l (i + 3)

/-- `SdpcmHeader::from_bytes` on the first 12 bytes of a packet, per the
little-endian layout of spec section 3 (only the first
`SdpcmHeader.SIZE` bytes are read). -/
def SdpcmHeader.from_bytes (l : List Nat) : SdpcmHeader :=
  { len := le16 l 0
    len_inv := le16 l 2
    sequence := get8 l 4
    channel_and_flags := get8 l 5
    next_length := get8 l 6
    header_length := get8 l 7
    wireless_flow_control := get8 l 8
    bus_data_credit := get8 l 9
    reserved0 := get8 l 10
    reserved1 := get8 l 11 }

/-- `CdcHeader::from_bytes` on the first 16 bytes of the payload, per the
little-endian layout of spec section 3. -/
def CdcHeader.from_bytes (l : List Nat) : CdcHeader :=
  { cmd := le32 l 0
    len := le32 l 4
    flags := le16 l 8
    id := le16 l 10
    status := le32 l 12 }

/-- Modelled from the spec: the firmware event enumeration of the missing
`events.rs`.  The spec (sections 4.7, 4.9) names `AUTH` and `JOIN` as the
published events; their numeric codes (JOIN = 1, AUTH = 3) are the
standard Broadcom event codes.  `events::Event::from(u8)` maps every
other code to some other event, modelled by `other`. -/
inductive Event where
  | AUTH : Event
  | JOIN : Event
  | other : Nat → Event
deriving DecidableEq

/-- Modelled from the spec: the `u8 → Event` conversion of the missing
`events.rs`. -/
def Event.fromCode (n : Nat) : Event :=
  if n = 3 then Event.AUTH else if n = 1 then Event.JOIN else Event.other n

/-- The `{status, event_type}` pair published on the event bus
(`EventStatus` in `events.rs`, field list from spec sections 4.7 and 6). -/
structure EventStatus where
  status : Nat
  event_type : Event
deriving DecidableEq

/-- Modelled from the spec: byte size of the missing `structs.rs`
`EventMessage` (version, flags, event_type, status, reason, auth_type,
datalen, addr, ifname, ifidx, bsscfgidx — the standard 48-byte Broadcom
event record; the spec fixes only the fields the runner reads). -/
def EventMessage.SIZE : Nat := 48

/-- Modelled from the spec: byte size of the missing `structs.rs`
`EventPacket` = 14-byte Ethernet header + 10-byte vendor header +
48-byte event message (spec section 3). -/
def EventPacket.SIZE : Nat := 72

/-- The fields of the decoded (already byteswapped) event packet that
`Runner::rx` reads: `eth.ether_type`, `hdr.oui`, `hdr.subtype`,
`hdr.user_subtype`, `msg.event_type`, `msg.status`, `msg.datalen`. -/
structure EventPacketFields where
  ether_type : Nat
  oui : List Nat
  subtype : Nat
  user_subtype : Nat
  event_type : Nat
  status : Nat
  datalen : Nat
deriving DecidableEq

/-- Modelled from the spec: `EventPacket::from_bytes` + `byteswap` of the
missing `structs.rs`, restricted to the fields the runner reads.  The
validated fields sit after the standard 14-byte Ethernet header (network
byte order throughout, spec sections 3 and 6): vendor subtype at 14,
OUI at 19, user_subtype at 22, then the event message at 24 with
event_type at +4, status at +8 and datalen at +20. -/
def EventPacketFields.from_bytes (l : List Nat) : EventPacketFields :=
  { ether_type := be16 l 12
    oui := [get8 l 19, get8 l 20, get8 l 21]
    subtype := be16 l 14
    user_subtype := be16 l 22
    event_type := be32 l 28
    status := be32 l 32
    datalen := be32 l 44 }

/-- Broadcom vendor OUI `00:10:18` (`BROADCOM_OUI` in `rx`). -/
def BROADCOM_OUI : List Nat := [0x00, 0x10, 0x18]

/-- One externally visible effect of `Runner::rx`: an IOCTL response
delivered to the rendezvous (`ioctl_state.ioctl_done`), an event
published on the event bus (`events.publish_immediate`), or a data
packet pushed to the host RX channel (`ch.rx_done`). -/
inductive RxAction where
  | ioctlResponse : List Nat → RxAction
  | eventPublish : EventStatus → RxAction
  | rxEnqueue : List Nat → RxAction
deriving DecidableEq

/-- Outcome of `Runner::rx` on one packet: either the function panics
(an out-of-bounds slice index, a failed `copy_from_slice`, or the
explicit IOCTL-error panic), or it returns normally with the new runner
state and the list of emitted effects. -/
inductive RxOutcome where
  | panicked : RxOutcome
  | ok : RunnerState → List RxAction → RxOutcome
deriving DecidableEq

/-- The event-channel decision logic of `Runner::rx` (lines 401-449),
applied to the decoded event packet and the length of `bcd_packet`:
validate `ether_type`, OUI, subtype and user_subtype, require the event
data to fit (`datalen < bcd_packet.len() - EventMessage::SIZE`), then
publish `{status, event_type}` only for `AUTH` and `JOIN`. -/
def rxEventDecision (ep : EventPacketFields) (bcdPacketLen : Nat) : Option EventStatus :=
  if ep.ether_type ≠ 0x886c then none
  else if ep.oui ≠ BROADCOM_OUI then none
  else if ep.subtype ≠ 32769 then none
  else if ep.user_subtype ≠ 1 then none
  else if ep.datalen ≥ bcdPacketLen - EventMessage.SIZE then none
  else
    let evt_type := Event.fromCode (ep.event_type % 256)
    if evt_type = Event.AUTH ∨ evt_type = Event.JOIN then
      some { status := ep.status, event_type := evt_type }
    else
      none

/-- CONTROL branch of `Runner::rx` (lines 363-384).  A payload shorter
than the CDC header is dropped with a warning.  On an id match: non-zero
`status` hits the source's `panic!`; `&payload[CdcHeader::SIZE..][..resp_len]`
panics when `cdc.len` exceeds the remaining payload; otherwise the
response bytes are delivered to the IOCTL rendezvous. -/
def rxControl (st : RunnerState) (payload : List Nat) : RxOutcome :=
  if payload.length < CdcHeader.SIZE then RxOutcome.ok st []
  else
    let cdc_header := CdcHeader.from_bytes payload
    if cdc_header.id = st.ioctl_id then
      if cdc_header.status ≠ 0 then RxOutcome.panicked
      else if cdc_header.len > payload.length - CdcHeader.SIZE then RxOutcome.panicked
      else RxOutcome.ok st
        [RxAction.ioctlResponse ((payload.drop CdcHeader.SIZE).take cdc_header.len)]
    else RxOutcome.ok st []

/-- EVENT branch of `Runner::rx` (lines 385-450).
`&payload[..BcdHeader::SIZE]` panics on a payload shorter than the BCD
header (the source performs no length check before this slice); then the
packet start is `BcdHeader::SIZE + 4 * data_offset`, an incomplete
header is dropped, and the decoded packet goes through
`rxEventDecision`. -/
def rxEvent (st : RunnerState) (payload : List Nat) : RxOutcome :=
  if payload.length < BcdHeader.SIZE then RxOutcome.panicked
  else
    let data_offset := get8 payload 3
    let packet_start := BcdHeader.SIZE + 4 * data_offset
    if packet_start + EventPacket.SIZE > payload.length then RxOutcome.ok st []
    else
      let bcd_packet := payload.drop packet_start
      let event_packet := EventPacketFields.from_bytes bcd_packet
      match rxEventDecision event_packet bcd_packet.length with
      | some es => RxOutcome.ok st [RxAction.eventPublish es]
      | none => RxOutcome.ok st []

/-- DATA branch of `Runner::rx` (lines 451-470), parameterised by whether
`ch.try_rx_buf()` yields a buffer and by the host buffer size (`MTU`).
`&payload[..BcdHeader::SIZE]` panics on a short payload; an
out-of-range packet start is dropped; `buf[..packet.len()]` panics when
the packet exceeds the host buffer; a full RX ring drops the packet. -/
def rxData (rxBufAvail : Bool) (mtu : Nat) (st : RunnerState) (payload : List Nat) : RxOutcome :=
  if payload.length < BcdHeader.SIZE then RxOutcome.panicked
  else
    let data_offset := get8 payload 3
    let packet_start := BcdHeader.SIZE + 4 * data_offset
    if packet_start > payload.length then RxOutcome.ok st []
    else
      let pkt := payload.drop packet_start
      if rxBufAvail then
        if pkt.length > mtu then RxOutcome.panicked
        else RxOutcome.ok st [RxAction.rxEnqueue pkt]
      else RxOutcome.ok st []

/-- `Runner::rx` (lines 338-473): drop packets shorter than the SDPCM
header, with `len != !len_inv`, or with `len != packet.len()`; then
apply `update_credit`, slice the payload at `header_length`
(`&packet[header_length..]` panics when `header_length` exceeds the
packet length), and dispatch on the low channel nibble. -/
def rx (rxBufAvail : Bool) (mtu : Nat) (st : RunnerState) (packet : List Nat) : RxOutcome :=
  if packet.length < SdpcmHeader.SIZE then RxOutcome.ok st []
  else
    let sdpcm_header := SdpcmHeader.from_bytes packet
    if sdpcm_header.len ≠ sdpcm_header.len_inv ^^^ 0xffff then RxOutcome.ok st []
    else if sdpcm_header.len ≠ packet.length then RxOutcome.ok st []
    else
      let st := update_credit st sdpcm_header
      let channel := sdpcm_header.channel_and_flags % 16
      if sdpcm_header.header_length > packet.length then RxOutcome.panicked
      else
        let payload := packet.drop sdpcm_header.header_length
        if channel = CHANNEL_TYPE_CONTROL then rxControl st payload
        else if channel = CHANNEL_TYPE_EVENT then rxEvent st payload
        else if channel = CHANNEL_TYPE_DATA then rxData rxBufAvail mtu st payload
        else RxOutcome.ok st []

/-- C1: for channel < 3 frames `update_credit` installs `bus_data_credit`
as `sdpcm_seq_max`, clamped to `sdpcm_seq + 2` when the wrapping u8
difference exceeds 0x40; channel ≥ 3 frames change nothing; the other
state fields are never touched. -/
theorem C1_update_credit (st : RunnerState) (h : SdpcmHeader)
    (hseq : st.sdpcm_seq < 256) (hcred : h.bus_data_credit < 256) :
    (h.channel_and_flags % 16 < 3 →
      (update_credit st h).sdpcm_seq_max =
        (if (h.bus_data_credit + 256 - st.sdpcm_seq) % 256 > 0x40 then
          (st.sdpcm_seq + 2) % 256
        else h.bus_data_credit)) ∧
    (3 ≤ h.channel_and_flags % 16 →
      (update_credit st h).sdpcm_seq_max = st.sdpcm_seq_max) ∧
    (update_credit st h).sdpcm_seq = st.sdpcm_seq ∧
    (update_credit st h).ioctl_id = st.ioctl_id := by
  unfold update_credit
  refine ⟨fun hch => ?_, fun hch => ?_, ?_, ?_⟩
  · rw [if_pos hch]
  · rw [if_neg (by omega)]
  · split <;> rfl
  · split <;> rfl

/-- C1 witness: with `sdpcm_seq = 10` a frame carrying
`bus_data_credit = 200` clamps `sdpcm_seq_max` to 12. -/
theorem C1_update_credit_witness :
    (update_credit { ioctl_id := 7, sdpcm_seq := 10, sdpcm_seq_max := 11 }
      { len := 12, len_inv := 65523, sequence := 0, channel_and_flags := 0,
        next_length := 0, header_length := 12, wireless_flow_control := 0,
        bus_data_credit := 200, reserved0 := 0, reserved1 := 0 }).sdpcm_seq_max = 12 := by
  have h := C1_update_credit
    { ioctl_id := 7, sdpcm_seq := 10, sdpcm_seq_max := 11 }
    { len := 12, len_inv := 65523, sequence := 0, channel_and_flags := 0,
      next_length := 0, header_length := 12, wireless_flow_control := 0,
      bus_data_credit := 200, reserved0 := 0, reserved1 := 0 }
    (by decide) (by decide)
  rw [h.1 (by decide)]
  decide

/-- C5: `has_credit` is true exactly when the sequence numbers differ and
the wrapping u8 difference `sdpcm_seq_max - sdpcm_seq` has bit `0x80`
clear. -/
theorem C5_has_credit (st : RunnerState)
    (h1 : st.sdpcm_seq < 256) (h2 : st.sdpcm_seq_max < 256) :
    has_credit st = true ↔
      (st.sdpcm_seq ≠ st.sdpcm_seq_max ∧
        ((st.sdpcm_seq_max + 256 - st.sdpcm_seq) % 256) &&& 0x80 = 0) := by
  unfold has_credit
  simp [Bool.and_eq_true, bne_iff_ne]

/-- C5 witness: a concrete state with `sdpcm_seq = 3`, `sdpcm_seq_max = 10`
has credit. -/
theorem C5_has_credit_witness :
    has_credit { ioctl_id := 0, sdpcm_seq := 3, sdpcm_seq_max := 10 } = true :=
  (C5_has_credit { ioctl_id := 0, sdpcm_seq := 3, sdpcm_seq_max := 10 }
    (by decide) (by decide)).mpr (by decide)

/-- C2: any packet failing one of the three SDPCM sanity checks is
dropped: `rx` returns the unchanged state and emits nothing, so
`update_credit` is never applied and nothing reaches the IOCTL
rendezvous, event bus or RX channel. -/
theorem C2_rx_malformed (rxBufAvail : Bool) (mtu : Nat) (st : RunnerState)
    (packet : List Nat)
    (hmal : packet.length < SdpcmHeader.SIZE ∨
      (SdpcmHeader.from_bytes packet).len_inv ≠
        (SdpcmHeader.from_bytes packet).len ^^^ 0xffff ∨
      (SdpcmHeader.from_bytes packet).len ≠ packet.length) :
    rx rxBufAvail mtu st packet = RxOutcome.ok st [] := by
  rcases hmal with h | h | h
  · simp only [rx]
    rw [if_pos h]
  · have h' : (SdpcmHeader.from_bytes packet).len ≠
        (SdpcmHeader.from_bytes packet).len_inv ^^^ 0xffff := by
      intro he
      apply h
      rw [he, Nat.xor_assoc, Nat.xor_self, Nat.xor_zero]
    simp only [rx]
    by_cases hA : packet.length < SdpcmHeader.SIZE
    · rw [if_pos hA]
    · rw [if_neg hA, if_pos h']
  · simp only [rx]
    by_cases hA : packet.length < SdpcmHeader.SIZE
    · rw [if_pos hA]
    · rw [if_neg hA]
      by_cases hB : (SdpcmHeader.from_bytes packet).len ≠
          (SdpcmHeader.from_bytes packet).len_inv ^^^ 0xffff
      · rw [if_pos hB]
      · rw [if_neg hB, if_pos h]

/-- C2 witness: the spec's malformed-length test, a 12-byte packet with
`len = 100` and `len_inv = 0`, is dropped with the state untouched. -/
theorem C2_rx_malformed_witness :
    rx false 1514 { ioctl_id := 3, sdpcm_seq := 4, sdpcm_seq_max := 5 }
      [100, 0, 0, 0, 0, 0, 0, 12, 0, 0, 0, 0] =
      RxOutcome.ok { ioctl_id := 3, sdpcm_seq := 4, sdpcm_seq_max := 5 } [] :=
  C2_rx_malformed false 1514 { ioctl_id := 3, sdpcm_seq := 4, sdpcm_seq_max := 5 }
    [100, 0, 0, 0, 0, 0, 0, 12, 0, 0, 0, 0] (Or.inr (Or.inl (by decide)))

/-- Concrete 28-byte CONTROL packet whose CDC reply carries `id = 1` and
firmware error `status = 5`: a valid SDPCM header (`len = 28`,
`len_inv = 65507 = !28`, `header_length = 12`, channel CONTROL) followed
by a CDC header with `cmd = 0`, `len = 0`, `flags = 0`, `id = 1`,
`status = 5`. -/
def c3Packet : List Nat :=
  [28, 0, 227, 255, 0, 0, 0, 12, 0, 1, 0, 0,
   0, 0, 0, 0, 0, 0, 0, 0, 0, 0, 1, 0, 5, 0, 0, 0]

/-- C3: on a CONTROL reply matching the outstanding `ioctl_id` whose CDC
`status` is non-zero, the source hits `panic!("IOCTL error ...")`
(runner.rs line 375, marked `TODO: propagate error instead`) instead of
surfacing the failure to the IOCTL caller. -/
theorem C3_ioctl_error_panics :
    (CdcHeader.from_bytes (c3Packet.drop 12)).id = 1 ∧
    (CdcHeader.from_bytes (c3Packet.drop 12)).status = 5 ∧
    rx false 1514 { ioctl_id := 1, sdpcm_seq := 0, sdpcm_seq_max := 1 } c3Packet =
      RxOutcome.panicked := by
  decide

/-- Concrete 28-byte CONTROL packet passing every SDPCM check, whose CDC
reply matches `ioctl_id = 0` with `status = 0` but claims `len = 100`
while zero payload bytes remain after the CDC header. -/
def c4Packet : List Nat :=
  [28, 0, 227, 255, 0, 0, 0, 12, 0, 1, 0, 0,
   0, 0, 0, 0, 100, 0, 0, 0, 0, 0, 0, 0, 0, 0, 0, 0]

/-- C4: `rx` does not terminate normally on every inbound packet: on a
well-formed SDPCM CONTROL frame whose CDC `len` field exceeds the
remaining payload, `&payload[CdcHeader::SIZE..][..resp_len]`
(runner.rs line 379) indexes out of bounds and panics. -/
theorem C4_rx_panics_on_oversized_cdc_len :
    (SdpcmHeader.from_bytes c4Packet).len = c4Packet.length ∧
    (SdpcmHeader.from_bytes c4Packet).len_inv =
      (SdpcmHeader.from_bytes c4Packet).len ^^^ 0xffff ∧
    (CdcHeader.from_bytes (c4Packet.drop 12)).len = 100 ∧
    (CdcHeader.from_bytes (c4Packet.drop 12)).status = 0 ∧
    rx false 1514 RunnerState.new c4Packet = RxOutcome.panicked := by
  decide

/-- Helper: `update_credit` never touches `sdpcm_seq`. -/
theorem update_credit_sdpcm_seq (st : RunnerState) (h : SdpcmHeader) :
    (update_credit st h).sdpcm_seq = st.sdpcm_seq := by
  unfold update_credit
  split <;> rfl

/-- C6: starting from any state whose wrapped credit window
`(sdpcm_seq_max - sdpcm_seq) mod 256` is at most 0x40 (the initial state
qualifies), folding `update_credit` over any sequence of frames each
satisfying `(bus_data_credit - sdpcm_seq) mod 256 ≤ 0x40` keeps the
window at most 0x40. -/
theorem C6_credit_window_bound : ∀ (hdrs : List SdpcmHeader) (st : RunnerState),
    (st.sdpcm_seq_max + 256 - st.sdpcm_seq) % 256 ≤ 0x40 →
    (∀ h ∈ hdrs, (h.bus_data_credit + 256 - st.sdpcm_seq) % 256 ≤ 0x40) →
    ((hdrs.foldl update_credit st).sdpcm_seq_max + 256 -
      (hdrs.foldl update_credit st).sdpcm_seq) % 256 ≤ 0x40 := by
  intro hdrs
  induction hdrs with
  | nil =>
    intro st hinit _
    exact hinit
  | cons h t ih =>
    intro st hinit hall
    simp only [List.foldl_cons]
    have hhead := hall h (List.mem_cons_self h t)
    apply ih
    · unfold update_credit
      split
      · split
        · omega
        · simpa using hhead
      · exact hinit
    · intro h' hh'
      rw [update_credit_sdpcm_seq st h]
      exact hall h' (List.mem_cons_of_mem h hh')

/-- C6 witness: from the fresh runner state, two in-window credit updates
(credits 0x30 then 0x10) keep the window at most 0x40. -/
theorem C6_credit_window_bound_witness :
    (([(⟨12, 65523, 0, 0, 0, 12, 0, 48, 0, 0⟩ : SdpcmHeader),
       ⟨12, 65523, 0, 1, 0, 12, 0, 16, 0, 0⟩].foldl update_credit
        RunnerState.new).sdpcm_seq_max + 256 -
      ([(⟨12, 65523, 0, 0, 0, 12, 0, 48, 0, 0⟩ : SdpcmHeader),
        ⟨12, 65523, 0, 1, 0, 12, 0, 16, 0, 0⟩].foldl update_credit
        RunnerState.new).sdpcm_seq) % 256 ≤ 0x40 :=
  C6_credit_window_bound
    [⟨12, 65523, 0, 0, 0, 12, 0, 48, 0, 0⟩, ⟨12, 65523, 0, 1, 0, 12, 0, 16, 0, 0⟩]
    RunnerState.new (by decide) (by decide)

/-- C8 counterexample: a decoded event packet that passes all four header
validations and carries an AUTH event is nevertheless not published,
because its `datalen` (52) is not strictly below
`bcd_packet.len() - EventMessage::SIZE` (100 - 48 = 52); the claim's
"publishes exactly when" biconditional fails at this input. -/
theorem C8_counterexample :
    (EventPacketFields.mk 0x886c BROADCOM_OUI 32769 1 3 0 52).ether_type = 0x886c ∧
    (EventPacketFields.mk 0x886c BROADCOM_OUI 32769 1 3 0 52).oui = BROADCOM_OUI ∧
    (EventPacketFields.mk 0x886c BROADCOM_OUI 32769 1 3 0 52).subtype = 32769 ∧
    (EventPacketFields.mk 0x886c BROADCOM_OUI 32769 1 3 0 52).user_subtype = 1 ∧
    Event.fromCode ((EventPacketFields.mk 0x886c BROADCOM_OUI 32769 1 3 0 52).event_type % 256)
      = Event.AUTH ∧
    rxEventDecision (EventPacketFields.mk 0x886c BROADCOM_OUI 32769 1 3 0 52) 100 = none := by
  decide

/-- C8 amended: the EVENT branch publishes exactly when the decoded
packet has `ether_type 0x886C`, the Broadcom OUI, subtype 32769,
user_subtype 1, a `datalen` strictly below
`bcd_packet.len() - EventMessage::SIZE`, and an AUTH or JOIN event type;
the published value is the `{status, event_type}` pair. -/
theorem C8_amended_event_publish (ep : EventPacketFields) (bcdPacketLen : Nat) :
    rxEventDecision ep bcdPacketLen =
      (if ep.ether_type = 0x886c ∧ ep.oui = BROADCOM_OUI ∧ ep.subtype = 32769 ∧
          ep.user_subtype = 1 ∧ ep.datalen < bcdPacketLen - EventMessage.SIZE ∧
          (Event.fromCode (ep.event_type % 256) = Event.AUTH ∨
            Event.fromCode (ep.event_type % 256) = Event.JOIN) then
        some { status := ep.status, event_type := Event.fromCode (ep.event_type % 256) }
      else none) := by
  simp only [rxEventDecision]
  split_ifs <;>
    first
      | rfl
      | (exfalso; push_neg at *; tauto)
      | (exfalso; push_neg at *; omega)

/-- C10: an EVENT frame that passes all four header validations is still
dropped whenever `datalen` is greater than or equal to
`bcd_packet.len() - EventMessage::SIZE`; publication requires the strict
inequality, so an event whose data exactly fills the rest of the packet
is dropped. -/
theorem C10_event_datalen_strict (ep : EventPacketFields) (bcdPacketLen : Nat)
    (h1 : ep.ether_type = 0x886c) (h2 : ep.oui = BROADCOM_OUI)
    (h3 : ep.subtype = 32769) (h4 : ep.user_subtype = 1) :
    (ep.datalen ≥ bcdPacketLen - EventMessage.SIZE →
      rxEventDecision ep bcdPacketLen = none) ∧
    (∀ es, rxEventDecision ep bcdPacketLen = some es →
      ep.datalen < bcdPacketLen - EventMessage.SIZE) := by
  constructor
  · intro hd
    simp only [rxEventDecision]
    split_ifs <;>
      first
        | rfl
        | (exfalso; push_neg at *; tauto)
        | (exfalso; push_neg at *; omega)
  · intro es heq
    by_contra hlt
    push_neg at hlt
    rw [show rxEventDecision ep bcdPacketLen = none by
      simp only [rxEventDecision]
      split_ifs <;>
        first
          | rfl
          | (exfalso; push_neg at *; tauto)
          | (exfalso; push_neg at *; omega)] at heq
    exact Option.noConfusion heq

/-- C10 witness: a fully valid AUTH event whose data exactly fills the
remaining packet (`datalen = 24`, `bcd_packet.len() = 72`) is dropped. -/
theorem C10_event_datalen_strict_witness :
    rxEventDecision (EventPacketFields.mk 0x886c BROADCOM_OUI 32769 1 3 0 24) 72 = none :=
  (C10_event_datalen_strict (EventPacketFields.mk 0x886c BROADCOM_OUI 32769 1 3 0 24) 72
    rfl rfl rfl rfl).1 (by decide)

/-- `SdpcmHeader::to_bytes`: 12-byte little-endian serialization (layout
from spec section 3; the spec fixes little-endian byte-wise
serialization for all headers). -/
def SdpcmHeader.to_bytes (h : SdpcmHeader) : List Nat :=
  [h.len % 256, h.len / 256 % 256,
   h.len_inv % 256, h.len_inv / 256 % 256,
   h.sequence, h.channel_and_flags, h.next_length, h.header_length,
   h.wireless_flow_control, h.bus_data_credit, h.reserved0, h.reserved1]

/-- `CdcHeader::to_bytes`: 16-byte little-endian serialization. -/
def CdcHeader.to_bytes (c : CdcHeader) : List Nat :=
  [c.cmd % 256, c.cmd / 256 % 256, c.cmd / 65536 % 256, c.cmd / 16777216 % 256,
   c.len % 256, c.len / 256 % 256, c.len / 65536 % 256, c.len / 16777216 % 256,
   c.flags % 256, c.flags / 256 % 256,
   c.id % 256, c.id / 256 % 256,
   c.status % 256, c.status / 256 % 256, c.status / 65536 % 256, c.status / 16777216 % 256]

/-- `buf[off..off + src.len()].copy_from_slice(src)` on a byte buffer. -/
def writeInto (buf : List Nat) (off : Nat) (src : List Nat) : List Nat :=
  buf.take off ++ src ++ buf.drop (off + src.length)

/-- `Runner::send_ioctl` (lines 489-530): serialize an SDPCM CONTROL
header (using the pre-increment `sdpcm_seq`) and a CDC header (using the
incremented `ioctl_id`) followed by the payload into a zeroed 512-word
(2048-byte) scratch buffer, then perform one bus write covering the
total length rounded up to a 4-byte multiple (`(total_len + 3) & !3`,
i.e. `(total_len + 3) / 4 * 4`; `wlan_write(&buf[..total_len / 4])` on
32-bit words covers exactly those padded bytes).  `none` models the
`copy_from_slice` panic when the payload overruns the scratch buffer. -/
def send_ioctl (st : RunnerState) (kind cmd iface : Nat) (data : List Nat) :
    Option (RunnerState × List Nat) :=
  let total_len := SdpcmHeader.SIZE + CdcHeader.SIZE + data.length
  if total_len > 2048 then none
  else
    let sdpcm_seq := st.sdpcm_seq
    let st1 : RunnerState :=
      { st with sdpcm_seq := (st.sdpcm_seq + 1) % 256,
                ioctl_id := (st.ioctl_id + 1) % 65536 }
    let sdpcm_header : SdpcmHeader :=
      { len := total_len % 65536, len_inv := (total_len % 65536) ^^^ 0xffff,
        sequence := sdpcm_seq, channel_and_flags := CHANNEL_TYPE_CONTROL,
        next_length := 0, header_length := SdpcmHeader.SIZE,
        wireless_flow_control := 0, bus_data_credit := 0,
        reserved0 := 0, reserved1 := 0 }
    let cdc_header : CdcHeader :=
      { cmd := cmd, len := data.length % 4294967296,
        flags := (kind % 65536) ||| (((iface % 65536) <<< 12) % 65536),
        id := st1.ioctl_id, status := 0 }
    let buf0 : List Nat := List.replicate 2048 0
    let buf1 := writeInto buf0 0 sdpcm_header.to_bytes
    let buf2 := writeInto buf1 SdpcmHeader.SIZE cdc_header.to_bytes
    let buf3 := writeInto buf2 (SdpcmHeader.SIZE + CdcHeader.SIZE) data
    let padded := (total_len + 3) / 4 * 4
    some (st1, buf3.take padded)

/-- Helper: writing into the middle of a buffer that is a prefix followed
by filler splices the source in after the prefix. -/
theorem take_prefix_append (a b r : List Nat) :
    (a ++ (b ++ r)).take (a.length + b.length) = a ++ b := by
  rw [List.take_append, List.take_left]

/-- Helper: dropping past two leading blocks of an append. -/
theorem drop_prefix2_append (a b r : List Nat) (n : Nat) :
    (a ++ (b ++ r)).drop (a.length + b.length + n) = r.drop n := by
  rw [Nat.add_assoc, List.drop_append, List.drop_append]

/-- Helper: taking a rounded-up length from headers-plus-payload followed
by a zero filler yields the payload padded with zero bytes. -/
theorem take_append_append_replicate (a b : List Nat) (k P : Nat)
    (h1 : a.length + b.length ≤ P) (h2 : P - (a.length + b.length) ≤ k) :
    (a ++ (b ++ List.replicate k 0)).take P
      = a ++ (b ++ List.replicate (P - (a.length + b.length)) 0) := by
  conv_lhs =>
    rw [show P = a.length + (b.length + (P - (a.length + b.length))) from by omega]
  rw [List.take_append, List.take_append, List.take_replicate,
    Nat.min_eq_left h2]

/-- Helper: the three `copy_from_slice` writes of `send_ioctl` followed by
the padded `take` produce header bytes, payload and zero padding. -/
theorem triple_write (s12 s16 data : List Nat)
    (h12 : s12.length = 12) (h16 : s16.length = 16) (hn : data.length ≤ 2020) :
    (writeInto (writeInto (writeInto (List.replicate 2048 0) 0 s12) 12 s16)
        (12 + 16) data).take ((12 + 16 + data.length + 3) / 4 * 4)
      = s12 ++ (s16 ++ (data ++ List.replicate
          ((12 + 16 + data.length + 3) / 4 * 4 - (12 + 16 + data.length)) 0)) := by
  have e1 : writeInto (List.replicate 2048 0) 0 s12 = s12 ++ List.replicate 2036 0 := by
    unfold writeInto
    rw [h12]
    rw [List.take_zero, List.nil_append, List.drop_replicate]
  have e2 : writeInto (s12 ++ List.replicate 2036 0) 12 s16
      = s12 ++ (s16 ++ List.replicate 2020 0) := by
    unfold writeInto
    rw [← h12, h16, List.take_left, List.drop_append, List.drop_replicate,
      List.append_assoc]
  have e3 : writeInto (s12 ++ (s16 ++ List.replicate 2020 0)) (12 + 16) data
      = (s12 ++ s16) ++ (data ++ List.replicate (2020 - data.length) 0) := by
    unfold writeInto
    rw [← h12, ← h16, take_prefix_append, drop_prefix2_append, List.drop_replicate,
      List.append_assoc]
  rw [e1, e2, e3]
  rw [take_append_append_replicate (s12 ++ s16) data (2020 - data.length)
    ((12 + 16 + data.length + 3) / 4 * 4)
    (by simp [List.length_append, h12, h16]; omega)
    (by simp [List.length_append, h12, h16]; omega)]
  simp [List.length_append, h12, h16, List.append_assoc]

/-- C7: `send_ioctl` performs exactly one bus write consisting of an
SDPCM CONTROL header with `len = 12 + 16 + n` (and its complement
`len_inv`) carrying the pre-increment `sdpcm_seq`, a CDC header with
`flags = kind | (iface << 12)`, `id = ioctl_id + 1` (incremented before
use) and `len = n`, the payload, and zero padding up to a 4-byte
multiple; afterwards `sdpcm_seq` and `ioctl_id` are incremented. -/
theorem C7_send_ioctl (st : RunnerState) (kind cmd iface : Nat) (data : List Nat)
    (hn : data.length ≤ 2020) :
    send_ioctl st kind cmd iface data = some
      ({ ioctl_id := (st.ioctl_id + 1) % 65536,
         sdpcm_seq := (st.sdpcm_seq + 1) % 256,
         sdpcm_seq_max := st.sdpcm_seq_max },
       SdpcmHeader.to_bytes
          { len := (12 + 16 + data.length) % 65536,
            len_inv := ((12 + 16 + data.length) % 65536) ^^^ 0xffff,
            sequence := st.sdpcm_seq, channel_and_flags := CHANNEL_TYPE_CONTROL,
            next_length := 0, header_length := SdpcmHeader.SIZE,
            wireless_flow_control := 0, bus_data_credit := 0,
            reserved0 := 0, reserved1 := 0 } ++
        (CdcHeader.to_bytes
          { cmd := cmd, len := data.length % 4294967296,
            flags := (kind % 65536) ||| (((iface % 65536) <<< 12) % 65536),
            id := (st.ioctl_id + 1) % 65536, status := 0 } ++
        (data ++
        List.replicate ((12 + 16 + data.length + 3) / 4 * 4
          - (12 + 16 + data.length)) 0))) := by
  simp only [send_ioctl, SdpcmHeader.SIZE, CdcHeader.SIZE]
  rw [if_neg (by omega)]
  refine congrArg some (Prod.ext rfl ?_)
  exact triple_write _ _ data rfl rfl hn

/-- C7 witness: the spec's IOCTL round-trip on a fresh runner —
`{SET = 2, cmd = 0x20, iface = 0, data = [0xAA, 0xBB]}` emits one write
of SDPCM(seq = 0, channel = CONTROL, len = 30) + CDC(id = 1, len = 2) +
payload padded to 32 bytes, and bumps `sdpcm_seq` to 1 and `ioctl_id`
to 1. -/
theorem C7_send_ioctl_witness :
    send_ioctl RunnerState.new 2 0x20 0 [0xAA, 0xBB] = some
      ({ ioctl_id := 1, sdpcm_seq := 1, sdpcm_seq_max := 1 },
       [30, 0, 225, 255, 0, 0, 0, 12, 0, 0, 0, 0,
        32, 0, 0, 0, 2, 0, 0, 0, 2, 0, 1, 0, 0, 0, 0, 0,
        0xAA, 0xBB, 0, 0]) := by
  rw [C7_send_ioctl RunnerState.new 2 0x20 0 [0xAA, 0xBB] (by decide)]
  decide

/-- Wrapping 32-bit subtraction (Rust `u32` subtraction in release mode). -/
def wsub32 (a b : Nat) : Nat :=
  (a % 4294967296 + 4294967296 - b % 4294967296) % 4294967296

/-- NVRAM length rounded up to 4 bytes in `Runner::init` (line 105):
`(NVRAM.len() + 3) / 4 * 4`. -/
def nvram_padded_len (n : Nat) : Nat := (n + 3) / 4 * 4

/-- Backplane address the NVRAM blob is written to in `Runner::init`
(line 107): `ram_addr + CHIP.chip_ram_size - 4 - nvram_len as u32`, in
u32 arithmetic; the chip parameters are arguments since `consts.rs` is
per-chip. -/
def nvram_write_addr (base ramSize n : Nat) : Nat :=
  wsub32 (wsub32 ((base + ramSize) % 4294967296) 4) (nvram_padded_len n)

/-- NVRAM trailer word written at `ram_addr + CHIP.chip_ram_size - 4` in
`Runner::init` (lines 110-113): `(!nvram_len_words << 16) | nvram_len_words`
with `nvram_len_words = nvram_len as u32 / 4`, in u32 arithmetic (`!` on
`u32` is xor with `0xffffffff`). -/
def nvram_len_magic (n : Nat) : Nat :=
  let w := nvram_padded_len n % 4294967296 / 4
  ((w ^^^ 4294967295) <<< 16) % 4294967296 ||| w

/-- C9: `init` pads the NVRAM length up to the 4-byte multiple
`n' = ((n + 3) / 4) * 4` (a multiple of 4, at least `n`, less than
`n + 4`), writes the blob at `ATCM_RAM_BASE + CHIP_RAM_SIZE - 4 - n'`,
and writes the trailer word `((~(n' / 4)) << 16) | (n' / 4)` at
`ATCM_RAM_BASE + CHIP_RAM_SIZE - 4`, in wrapping 32-bit arithmetic
(stated without wrap for the address since the chip RAM window fits in
the 32-bit space). -/
theorem C9_nvram_layout (base ramSize n : Nat)
    (hfit : 4 + nvram_padded_len n ≤ base + ramSize)
    (hsz : base + ramSize < 4294967296) :
    nvram_padded_len n = (n + 3) / 4 * 4 ∧
    4 ∣ nvram_padded_len n ∧
    n ≤ nvram_padded_len n ∧
    nvram_padded_len n < n + 4 ∧
    nvram_write_addr base ramSize n = base + ramSize - 4 - nvram_padded_len n ∧
    nvram_len_magic n =
      (((nvram_padded_len n / 4) ^^^ 0xffffffff) <<< 16) % 4294967296 |||
        nvram_padded_len n / 4 := by
  have hlt : nvram_padded_len n < 4294967296 := by
    unfold nvram_padded_len at *
    omega
  refine ⟨rfl, ?_, ?_, ?_, ?_, ?_⟩
  · unfold nvram_padded_len
    omega
  · unfold nvram_padded_len
    omega
  · unfold nvram_padded_len
    omega
  · unfold nvram_write_addr wsub32 nvram_padded_len at *
    omega
  · simp only [nvram_len_magic]
    rw [Nat.mod_eq_of_lt hlt]

/-- C9 witness: a 742-byte NVRAM blob with a 512 KiB chip RAM at base 0
is padded to 744 bytes, written at `524288 - 4 - 744`, with the trailer
`((~186) << 16) | 186`. -/
theorem C9_nvram_layout_witness :
    nvram_write_addr 0 524288 742 = 524288 - 4 - nvram_padded_len 742 ∧
    nvram_len_magic 742 =
      (((nvram_padded_len 742 / 4) ^^^ 0xffffffff) <<< 16) % 4294967296 |||
        nvram_padded_len 742 / 4 := by
  have h := C9_nvram_layout 0 524288 742 (by decide) (by decide)
  exact ⟨h.2.2.2.2.1, h.2.2.2.2.2⟩

end Cyw43
